import Mathlib

/-!
Verification of the attendance (absensi) event-processing core of the
`api-face-saraspatika` service: a shallow embedding, in Lean 4, of

* the similarity scorer and face selection from `app/services/face_service.py`,
* the RBAC permission resolver from `app/utils/rbac_utils.py`,
* the check-in/check-out HTTP routes from `app/blueprints/absensi/routes.py`,
* the asynchronous persistence tasks from `app/tasks/absensi_tasks.py`,

together with theorems settling the specified behaviour of each part.
Database tables are modelled as lists of records; SQLAlchemy queries become
list searches; the unique constraint on `absensi.correlation_id` becomes an
explicit conflict test at commit time.  Concurrent inserts that land between
a task's initial read and its commit are modelled by an explicit
`interleaved` record list handed to the task (`[]` for a sequential run).
-/

namespace FaceAttendance

/-! ### Small Python-compatible string helpers -/

/-- Python `str.strip()`: drop leading and trailing whitespace. -/
def pyStrip (s : String) : String :=
  ⟨((s.data.dropWhile Char.isWhitespace).reverse.dropWhile Char.isWhitespace).reverse⟩

/-- The normalisation `(payload.get(k) or "").strip() or None` applied to an
optional string field: strip whitespace and turn the empty string into `none`. -/
def normOptStr (s : Option String) : Option String :=
  let t := pyStrip (s.getD "")
  if t = "" then none else some t

/-- Python string formatting of an optional string (`None` prints as "None"). -/
def pyShowOpt (o : Option String) : String :=
  match o with
  | none => "None"
  | some s => s

/-- Python `iso.split('T')[0]`: the date part of an ISO datetime string. -/
def pyDateOfIso (s : String) : String :=
  (s.splitOn "T").headD ""

/-- Python `str.lower()`, character by character. -/
def pyLower (s : String) : String :=
  ⟨s.data.map Char.toLower⟩

/-! ### Time values

A `datetime` is modelled as a calendar day (the `date()` part) plus a
time-of-day (the `time()` part, e.g. seconds after midnight); comparisons
between datetimes are lexicographic. -/

structure LocalDateTime where
  day : Int
  tod : Int
  deriving DecidableEq, Repr

/-- Datetime order: lexicographic on (day, time-of-day). -/
def LocalDateTime.leb (a b : LocalDateTime) : Bool :=
  decide (a.day < b.day) || (a.day == b.day && decide (a.tod ≤ b.tod))

/-! ### Database model (`app/db/models.py`) -/

inductive StatusAbsensi where
  | TEPAT
  | TERLAMBAT
  deriving DecidableEq, Repr

structure PolaJamKerja where
  id_pola_kerja : String
  nama_pola_kerja : String
  jam_mulai_kerja : Int
  jam_selesai_kerja : Int
  deriving DecidableEq, Repr

structure JadwalShiftKerja where
  id_jadwal_shift : String
  id_user : String
  id_pola_kerja : String
  tanggal : LocalDateTime
  deriving DecidableEq, Repr

structure Absensi where
  id_absensi : String
  id_user : String
  id_jadwal_shift : Option String
  correlation_id : Option String
  id_lokasi_datang : Option String
  id_lokasi_pulang : Option String
  waktu_masuk : LocalDateTime
  waktu_pulang : Option LocalDateTime
  face_verified_masuk : Bool
  face_verified_pulang : Bool
  status_masuk : Option StatusAbsensi
  status_pulang : Option StatusAbsensi
  in_latitude : Option ℚ
  in_longitude : Option ℚ
  out_latitude : Option ℚ
  out_longitude : Option ℚ
  deriving DecidableEq, Repr

/-- The tables the attendance tasks read and write. -/
structure AbsensiDB where
  absensis : List Absensi
  jadwals : List JadwalShiftKerja
  polas : List PolaJamKerja
  deriving DecidableEq, Repr

/-! ### Generic list search returning an index (models ORM row identity) -/

/-- Index of the first element satisfying `p`, like `findIdx?`. -/
def findIdxA (p : α → Bool) : List α → Option Nat
  | [] => none
  | a :: as => if p a then some 0 else (findIdxA p as).map (· + 1)

/-! ### Task payloads and results (`app/tasks/absensi_tasks.py`) -/

structure CheckinPayload where
  user_id : String
  today_local : Int
  now_local : LocalDateTime
  location_id : Option String
  location_lat : Option ℚ
  location_lng : Option ℚ
  correlation_id : Option String
  face_verified : Bool
  deriving DecidableEq, Repr

structure CheckoutPayload where
  user_id : String
  absensi_id : Option String
  correlation_id : Option String
  now_local : LocalDateTime
  location_id : Option String
  location_lat : Option ℚ
  location_lng : Option ℚ
  face_verified : Bool
  deriving DecidableEq, Repr

/-- Result dictionary of a task: `{"status": "ok", "absensi_id": ..,
"idempotent": ..}` or `{"status": "error", "message": ..}`.  A missing
`idempotent` key is the flag `false`. -/
inductive TaskResult where
  | ok (message : String) (absensi_id : String) (idempotent : Bool)
  | error (message : String)
  deriving DecidableEq, Repr

def msgCheckinReplay : String := "Check-in sudah pernah disimpan"

def msgCheckinSuccess : String := "Check-in berhasil disimpan"

def msgCorrConflict (c : String) : String :=
  "correlation_id " ++ c ++ " sudah dipakai user lain."

/-- Message of the `IntegrityError` re-raised after a lost insert race whose
winning record belongs to another user; it surfaces through the outer
exception handler as `str(e)`. -/
def msgIntegrityError : String :=
  "IntegrityError: duplicate key value violates unique constraint"

def msgCheckoutNotFound (aid c : Option String) : String :=
  "Absensi tidak ditemukan untuk absensi_id=" ++ pyShowOpt aid ++
    " atau correlation_id=" ++ pyShowOpt c ++ "."

def msgCheckoutWrongUser : String := "Absensi tidak ditemukan untuk user tersebut."

def msgCheckoutReplay : String := "Check-out sudah pernah disimpan"

def msgCheckoutSuccess : String := "Check-out berhasil disimpan"

/-! ### Check-in task -/

/-- `s.query(Absensi).filter(Absensi.correlation_id == c).first()`. -/
def findByCorrelation (l : List Absensi) (c : String) : Option Absensi :=
  l.find? (fun r => r.correlation_id == some c)

/-- Number of stored records bearing correlation id `c`. -/
def countCorrelation (l : List Absensi) (c : String) : Nat :=
  l.countP (fun r => r.correlation_id == some c)

def polaExists (polas : List PolaJamKerja) (pid : String) : Bool :=
  polas.any (fun q => q.id_pola_kerja == pid)

def findPola (polas : List PolaJamKerja) (pid : String) : Option PolaJamKerja :=
  polas.find? (fun q => q.id_pola_kerja == pid)

/-- The shift lookup
`s.query(JadwalShiftKerja).join(PolaJamKerja).filter(id_user == u, date(tanggal) == today).first()`:
an inner join, so only schedule rows whose work pattern exists are returned. -/
def findJadwalForDate (db : AbsensiDB) (uid : String) (d : Int) : Option JadwalShiftKerja :=
  db.jadwals.find?
    (fun j => j.id_user == uid && j.tanggal.day == d && polaExists db.polas j.id_pola_kerja)

/-- Lateness decision: `TERLAMBAT` when the event time-of-day is strictly
after the scheduled start, `TEPAT` otherwise and whenever no (joined)
schedule row was found. -/
def lateStatus (db : AbsensiDB) (jadwal : Option JadwalShiftKerja)
    (now : LocalDateTime) : StatusAbsensi :=
  match jadwal with
  | none => StatusAbsensi.TEPAT
  | some j =>
    match findPola db.polas j.id_pola_kerja with
    | none => StatusAbsensi.TEPAT
    | some q =>
      if q.jam_mulai_kerja < now.tod then StatusAbsensi.TERLAMBAT else StatusAbsensi.TEPAT

/-- The `Absensi(...)` record built by the check-in task. -/
def mkCheckinRecord (db : AbsensiDB) (freshId : String) (p : CheckinPayload)
    (c : Option String) : Absensi :=
  let jadwal := findJadwalForDate db p.user_id p.today_local
  { id_absensi := freshId
    id_user := p.user_id
    id_jadwal_shift := jadwal.map (fun j => j.id_jadwal_shift)
    correlation_id := c
    id_lokasi_datang := p.location_id
    id_lokasi_pulang := none
    waktu_masuk := p.now_local
    waktu_pulang := none
    face_verified_masuk := p.face_verified
    face_verified_pulang := false
    status_masuk := some (lateStatus db jadwal p.now_local)
    status_pulang := none
    in_latitude := p.location_lat
    in_longitude := p.location_lng
    out_latitude := none
    out_longitude := none }

/-- Does inserting a record with correlation id `c` into `l` violate the
unique constraint on `absensi.correlation_id`?  (`NULL` never conflicts.) -/
def hasCorrelation (l : List Absensi) (c : Option String) : Bool :=
  match c with
  | some c0 => l.any (fun r => r.correlation_id == some c0)
  | none => false

/-- The `s.commit()` of the check-in insert, together with the
`except IntegrityError` handler: the committed table already holds the rows
other tasks wrote between this task's read and its write (`interleaved`).
On a uniqueness violation the task rolls back, re-queries by correlation id
and replays idempotently when the winning row belongs to the same user;
otherwise the `IntegrityError` is re-raised and surfaces as an error result. -/
def checkinCommit (db : AbsensiDB) (interleaved : List Absensi) (rec : Absensi)
    (c : Option String) (uid : String) : AbsensiDB × TaskResult :=
  let committed := db.absensis ++ interleaved
  if hasCorrelation committed c then
    match c with
    | some c0 =>
      match findByCorrelation committed c0 with
      | some e =>
        if e.id_user == uid then
          ({ db with absensis := committed }, TaskResult.ok msgCheckinReplay e.id_absensi true)
        else
          ({ db with absensis := committed }, TaskResult.error msgIntegrityError)
      | none => ({ db with absensis := committed }, TaskResult.error msgIntegrityError)
    | none => ({ db with absensis := committed }, TaskResult.error msgIntegrityError)
  else
    ({ db with absensis := committed ++ [rec] },
      TaskResult.ok msgCheckinSuccess rec.id_absensi false)

/-- `process_checkin_task_v2` from `app/tasks/absensi_tasks.py`.  `freshId` is
the UUID generated for a newly inserted row; `interleaved` lists the records
committed concurrently between this task's lookup and its own commit (empty
for a sequential execution). -/
def process_checkin_task_v2 (db : AbsensiDB) (interleaved : List Absensi)
    (freshId : String) (p : CheckinPayload) : AbsensiDB × TaskResult :=
  match normOptStr p.correlation_id with
  | some c =>
    match findByCorrelation db.absensis c with
    | some existing =>
      if existing.id_user == p.user_id then
        ({ db with absensis := db.absensis ++ interleaved },
          TaskResult.ok msgCheckinReplay existing.id_absensi true)
      else
        ({ db with absensis := db.absensis ++ interleaved },
          TaskResult.error (msgCorrConflict c))
    | none => checkinCommit db interleaved (mkCheckinRecord db freshId p (some c)) (some c) p.user_id
  | none => checkinCommit db interleaved (mkCheckinRecord db freshId p none) none p.user_id

/-- Repeated sequential submission of the same check-in payload; `fids` holds
the fresh row id each call would use, one per call. -/
def runCheckins (db : AbsensiDB) (fids : List String) (p : CheckinPayload) :
    AbsensiDB × List TaskResult :=
  match fids with
  | [] => (db, [])
  | f :: rest =>
    let out := process_checkin_task_v2 db [] f p
    let out2 := runCheckins out.1 rest p
    (out2.1, out.2 :: out2.2)

/-! ### Check-out task -/

/-- Target resolution of `process_checkout_task_v2`: by primary key first
(`s.get(Absensi, absensi_id)`), and only when that yields nothing, by the
pair `(correlation_id, id_user)`. -/
def resolveCheckoutIdx (l : List Absensi) (aid c : Option String) (uid : String) :
    Option Nat :=
  let byId :=
    match aid with
    | some a => findIdxA (fun (r : Absensi) => r.id_absensi == a) l
    | none => none
  match byId with
  | some i => some i
  | none =>
    match c with
    | some c0 =>
      findIdxA (fun (r : Absensi) => r.correlation_id == some c0 && r.id_user == uid) l
    | none => none

/-- The field updates the checkout task applies to the resolved record. -/
def applyCheckout (r : Absensi) (p : CheckoutPayload) : Absensi :=
  { r with
    waktu_pulang := some p.now_local
    id_lokasi_pulang := p.location_id
    out_latitude := p.location_lat
    out_longitude := p.location_lng
    face_verified_pulang := p.face_verified
    status_pulang := some StatusAbsensi.TEPAT }

/-- `process_checkout_task_v2` from `app/tasks/absensi_tasks.py`. -/
def process_checkout_task_v2 (db : AbsensiDB) (p : CheckoutPayload) :
    AbsensiDB × TaskResult :=
  let aid := normOptStr p.absensi_id
  let c := normOptStr p.correlation_id
  match resolveCheckoutIdx db.absensis aid c p.user_id with
  | none => (db, TaskResult.error (msgCheckoutNotFound aid c))
  | some i =>
    match db.absensis[i]? with
    | none => (db, TaskResult.error (msgCheckoutNotFound aid c))
    | some r =>
      if r.id_user == p.user_id then
        match r.waktu_pulang with
        | some _ => (db, TaskResult.ok msgCheckoutReplay r.id_absensi true)
        | none =>
          ({ db with absensis := db.absensis.set i (applyCheckout r p) },
            TaskResult.ok msgCheckoutSuccess r.id_absensi false)
      else (db, TaskResult.error msgCheckoutWrongUser)

/-! ### Operation sequences and the checkout-after-checkin invariant -/

inductive AbsensiOp where
  | checkin (freshId : String) (p : CheckinPayload)
  | checkout (p : CheckoutPayload)
  deriving Repr

def stepOp (db : AbsensiDB) (op : AbsensiOp) : AbsensiDB :=
  match op with
  | AbsensiOp.checkin f p => (process_checkin_task_v2 db [] f p).1
  | AbsensiOp.checkout p => (process_checkout_task_v2 db p).1

def runOps (db : AbsensiDB) (ops : List AbsensiOp) : AbsensiDB :=
  ops.foldl stepOp db

/-- A record satisfies the spec's data-model invariant when its checkout
timestamp is null or not earlier than its check-in timestamp. -/
def recInvariant (r : Absensi) : Bool :=
  match r.waktu_pulang with
  | none => true
  | some t => r.waktu_masuk.leb t

def dbInvariant (db : AbsensiDB) : Bool :=
  db.absensis.all recInvariant

/-- A checkout payload is timestamp-safe against `db` when the record it
would mutate (if any) was checked in no later than the payload's event
timestamp.  The code never enforces this itself. -/
def checkoutSafe (db : AbsensiDB) (p : CheckoutPayload) : Bool :=
  match resolveCheckoutIdx db.absensis (normOptStr p.absensi_id)
      (normOptStr p.correlation_id) p.user_id with
  | none => true
  | some i =>
    match db.absensis[i]? with
    | none => true
    | some r =>
      if r.id_user == p.user_id && r.waktu_pulang.isNone then
        r.waktu_masuk.leb p.now_local
      else true

def opStepSafe (db : AbsensiDB) (op : AbsensiOp) : Bool :=
  match op with
  | AbsensiOp.checkin _ _ => true
  | AbsensiOp.checkout p => checkoutSafe db p

def opsSafe : AbsensiDB → List AbsensiOp → Bool
  | _, [] => true
  | db, op :: rest => opStepSafe db op && opsSafe (stepOp db op) rest

/-! ### Similarity scorer (`app/services/face_service.py`)

Embedding vectors are lists of reals; the floating-point arithmetic of the
source is modelled by exact real arithmetic. -/

def dotList (a b : List ℝ) : ℝ :=
  (List.zipWith (· * ·) a b).sum

def subList (a b : List ℝ) : List ℝ :=
  List.zipWith (· - ·) a b

/-- Euclidean norm `np.linalg.norm v`. -/
noncomputable def normList (v : List ℝ) : ℝ :=
  Real.sqrt ((v.map (fun x => x * x)).sum)

/-- Outcome of `_score`: a similarity value, or the `ValueError` raised for an
unsupported metric selector. -/
inductive ScoreResult where
  | ok (score : ℝ)
  | err (message : String)

/-- `_score(a, b, metric)`: dot product under `"cosine"`, negated euclidean
distance under `"l2"` (the euclidean selector), `ValueError` otherwise. -/
noncomputable def scoreFn (a b : List ℝ) (metric : String) : ScoreResult :=
  if metric = "cosine" then ScoreResult.ok (dotList a b)
  else if metric = "l2" then ScoreResult.ok (-(normList (subList a b)))
  else ScoreResult.err ("Unsupported metric: " ++ metric)

/-- `_is_match(score, metric, threshold)`. -/
def is_match (s : ℝ) (metric : String) (threshold : ℝ) : Prop :=
  if metric = "cosine" then s ≥ threshold
  else if metric = "l2" then s ≥ -threshold
  else False

noncomputable instance (s : ℝ) (metric : String) (threshold : ℝ) :
    Decidable (is_match s metric threshold) := by
  unfold is_match
  split
  · exact inferInstance
  · split
    · exact inferInstance
    · exact inferInstance

/-! ### Face selection in `get_embedding` (`app/services/face_service.py`)

The detection collaborator (insightface `FaceAnalysis`, pinned by the
repository) returns faces whose bounding box is corner-format: components
0..3 are `(x1, y1, x2, y2)`, the top-left and bottom-right corners.  The
source's selection key `bbox[2] * bbox[3]` is therefore the product
`x2 * y2` of the bottom-right corner coordinates — NOT the box area
`(x2 - x1) * (y2 - y1)`. -/

structure BoundingBox where
  x1 : Int
  y1 : Int
  x2 : Int
  y2 : Int
  deriving DecidableEq, Repr

/-- The geometric area of a corner-format box. -/
def bboxArea (b : BoundingBox) : Int := (b.x2 - b.x1) * (b.y2 - b.y1)

structure DetectedFace where
  bbox : Option BoundingBox
  embedding : List ℚ
  deriving DecidableEq, Repr

/-- The selection key `f.bbox[2] * f.bbox[3] if hasattr(f, "bbox") else 0`:
the bottom-right corner coordinate product. -/
def faceKey (f : DetectedFace) : Int :=
  match f.bbox with
  | some b => b.x2 * b.y2
  | none => 0

/-- Python `max(xs, key=k)` starting from current best `cur`: a later element
replaces the best only when its key is strictly greater, so the first
maximal element wins. -/
def pyMaxAux (key : α → Int) (cur : α) : List α → α
  | [] => cur
  | a :: as => pyMaxAux key (if key cur < key a then a else cur) as

def pyMax (key : α → Int) : List α → Option α
  | [] => none
  | a :: as => some (pyMaxAux key a as)

/-- `get_embedding`: `None` when no face was detected, otherwise the embedding
of `max(faces, key=lambda f: f.bbox[2] * f.bbox[3] ...)`. -/
def get_embedding (faces : List DetectedFace) : Option (List ℚ) :=
  match pyMax faceKey faces with
  | none => none
  | some f => some f.embedding

/-! ### RBAC permission resolver (`app/utils/rbac_utils.py`) -/

structure Permission where
  id_permission : String
  resource : String
  action : String
  deriving DecidableEq, Repr

structure RolePermission where
  id_role : String
  id_permission : String
  deriving DecidableEq, Repr

structure UserRole where
  id_user : String
  id_role : String
  deriving DecidableEq, Repr

structure UserPermissionOverride where
  id_user : String
  id_permission : String
  grant : Bool
  deriving DecidableEq, Repr

structure RbacDB where
  permissions : List Permission
  role_permissions : List RolePermission
  user_roles : List UserRole
  overrides : List UserPermissionOverride
  deriving DecidableEq, Repr

/-- `_perm_key(resource, action)`: the canonical lowercased key. -/
def permKey (resource action : String) : String :=
  pyLower (resource ++ ":" ++ action)

/-- Rows of the role query: one `(resource, action)` pair per permission
reachable through `UserRole -> RolePermission -> Permission` for `uid`. -/
def rolePermPairs (db : RbacDB) (uid : String) : List (String × String) :=
  db.permissions.flatMap (fun pm =>
    db.role_permissions.flatMap (fun rp =>
      db.user_roles.filterMap (fun ur =>
        if pm.id_permission == rp.id_permission && rp.id_role == ur.id_role &&
            ur.id_user == uid then
          some (pm.resource, pm.action)
        else none)))

/-- The base set built from role-granted pairs; blank resources or actions are
skipped (`if resource and action`). -/
def addRoleKeys (pairs : List (String × String)) : Finset String :=
  pairs.foldl
    (fun s pr =>
      if pr.1 == "" || pr.2 == "" then s else insert (permKey pr.1 pr.2) s)
    ∅

/-- Rows of the override query joined with `Permission`:
`(grant, resource, action)` per override of `uid`. -/
def overrideRows (db : RbacDB) (uid : String) : List (Bool × String × String) :=
  db.overrides.flatMap (fun ov =>
    if ov.id_user == uid then
      db.permissions.filterMap (fun pm =>
        if pm.id_permission == ov.id_permission then
          some (ov.grant, pm.resource, pm.action)
        else none)
    else [])

/-- Second pass of `_compute_user_perm_set`: each override row adds its key
when `grant` and removes it otherwise; blank fields are skipped. -/
def applyOverrides (base : Finset String) (rows : List (Bool × String × String)) :
    Finset String :=
  rows.foldl
    (fun s row =>
      if row.2.1 == "" || row.2.2 == "" then s
      else if row.1 then insert (permKey row.2.1 row.2.2) s
      else s.erase (permKey row.2.1 row.2.2))
    base

/-- `_compute_user_perm_set(user_id)`. -/
def compute_user_perm_set (db : RbacDB) (uid : String) : Finset String :=
  applyOverrides (addRoleKeys (rolePermPairs db uid)) (overrideRows db uid)

/-- `can(user_id, resource, action)`: deny on an empty user id, otherwise a
membership test of the canonical key. -/
def can (db : RbacDB) (uid resource action : String) : Bool :=
  if uid = "" then false
  else decide (permKey resource action ∈ compute_user_perm_set db uid)

/-- Is this override row relevant to key `k` (non-blank and mapping to `k`)? -/
def overrideRelevant (k : String) (row : Bool × String × String) : Bool :=
  !(row.2.1 == "" || row.2.2 == "") && (permKey row.2.1 row.2.2 == k)

/-! ### Check-in / check-out routes (`app/blueprints/absensi/routes.py`)

The routes run the face verification synchronously and then enqueue the
persistence task.  The collaborator behaviour of `verify_user` is a
parameter: it either returns (with a match decision) or raises. -/

/-- Behaviour of `verify_user(user_id, image)` for the submitted probe:
a normal return carrying the match decision, a `FileNotFoundError`
(missing embedding and baselines), or any other exception. -/
inductive VerifyOutcome where
  | verified (matched : Bool)
  | embeddingMissing (message : String)
  | failure (message : String)
  deriving DecidableEq, Repr

/-- A Flask response: `ok(...)` or `error(message, status)`. -/
inductive RouteResponse where
  | ok (message : String)
  | err (message : String) (status : Nat)
  deriving DecidableEq, Repr

structure CheckinRequest where
  user_id : String
  location_id : String
  lat : Option ℚ
  lng : Option ℚ
  image_present : Bool
  captured_at : String
  correlation_id : Option String
  deriving DecidableEq, Repr

/-- The payload handed to `process_checkin_task_v2.delay`. -/
structure QueuedCheckin where
  user_id : String
  today_local : String
  now_local_iso : String
  location_id : String
  lat : Option ℚ
  lng : Option ℚ
  correlation_id : Option String
  deriving DecidableEq, Repr

/-- The `/checkin` route; the second component is the enqueued task payload
(`none` when no task was handed to the queue). -/
def checkin_route (req : CheckinRequest) (verify : VerifyOutcome)
    (userExists locExists : Bool) (serverNowIso : String) :
    RouteResponse × Option QueuedCheckin :=
  let user_id := pyStrip req.user_id
  let loc_id := pyStrip req.location_id
  let captured_at := pyStrip req.captured_at
  let correlation_id := normOptStr req.correlation_id
  if user_id = "" then (RouteResponse.err "user_id wajib ada" 400, none)
  else if loc_id = "" then (RouteResponse.err "location_id wajib ada" 400, none)
  else if req.lat.isNone || req.lng.isNone then
    (RouteResponse.err "lat/lng wajib ada" 400, none)
  else if !req.image_present then
    (RouteResponse.err "Field 'image' wajib ada" 400, none)
  else
    match verify with
    | VerifyOutcome.embeddingMissing m => (RouteResponse.err m 404, none)
    | VerifyOutcome.failure m => (RouteResponse.err m 500, none)
    | VerifyOutcome.verified _ =>
      -- the match decision returned by verify_user is not consulted
      if !userExists then (RouteResponse.err "User tidak ditemukan" 404, none)
      else if !locExists then (RouteResponse.err "Lokasi tidak ditemukan" 404, none)
      else
        let now_iso := if captured_at ≠ "" then captured_at else serverNowIso
        let attendance_date := pyDateOfIso now_iso
        (RouteResponse.ok "Check-in sedang diproses",
          some { user_id := user_id
                 today_local := attendance_date
                 now_local_iso := now_iso
                 location_id := loc_id
                 lat := req.lat
                 lng := req.lng
                 correlation_id := correlation_id })

structure CheckoutRequest where
  user_id : String
  absensi_id : String
  correlation_id : Option String
  location_id : String
  lat : Option ℚ
  lng : Option ℚ
  image_present : Bool
  captured_at : String
  deriving DecidableEq, Repr

/-- The payload handed to `process_checkout_task_v2.delay`. -/
structure QueuedCheckout where
  user_id : String
  absensi_id : String
  correlation_id : Option String
  now_local_iso : String
  location_id : String
  lat : Option ℚ
  lng : Option ℚ
  deriving DecidableEq, Repr

/-- The `/checkout` route; the second component is the enqueued task payload. -/
def checkout_route (req : CheckoutRequest) (verify : VerifyOutcome)
    (serverNowIso : String) : RouteResponse × Option QueuedCheckout :=
  let user_id := pyStrip req.user_id
  let absensi_id := pyStrip req.absensi_id
  let correlation_id := normOptStr req.correlation_id
  let loc_id := pyStrip req.location_id
  let captured_at := pyStrip req.captured_at
  if user_id = "" then (RouteResponse.err "user_id wajib ada" 400, none)
  else if absensi_id = "" && correlation_id.isNone then
    (RouteResponse.err "absensi_id atau correlation_id wajib ada" 400, none)
  else if req.lat.isNone || req.lng.isNone then
    (RouteResponse.err "lat/lng wajib ada" 400, none)
  else if !req.image_present then
    (RouteResponse.err "Field 'image' wajib ada" 400, none)
  else
    match verify with
    | VerifyOutcome.embeddingMissing m => (RouteResponse.err m 404, none)
    | VerifyOutcome.failure m => (RouteResponse.err m 500, none)
    | VerifyOutcome.verified _ =>
      -- the match decision returned by verify_user is not consulted
      let now_iso := if captured_at ≠ "" then captured_at else serverNowIso
      (RouteResponse.ok "Check-out sedang diproses",
        some { user_id := user_id
               absensi_id := absensi_id
               correlation_id := correlation_id
               now_local_iso := now_iso
               location_id := loc_id
               lat := req.lat
               lng := req.lng })

/-! ### Concrete fixtures used to evaluate the model on explicit inputs -/

/-- A stored attendance record with the given identity, owner, correlation id
and timestamps; the remaining columns carry plain defaults. -/
def exampleRecord (id uid : String) (c : Option String) (masuk : LocalDateTime)
    (pulang : Option LocalDateTime) : Absensi :=
  { id_absensi := id
    id_user := uid
    id_jadwal_shift := none
    correlation_id := c
    id_lokasi_datang := none
    id_lokasi_pulang := none
    waktu_masuk := masuk
    waktu_pulang := pulang
    face_verified_masuk := true
    face_verified_pulang := false
    status_masuk := some StatusAbsensi.TEPAT
    status_pulang := none
    in_latitude := none
    in_longitude := none
    out_latitude := none
    out_longitude := none }

def emptyAbsensiDB : AbsensiDB := { absensis := [], jadwals := [], polas := [] }

def w1P : CheckinPayload :=
  { user_id := "u1"
    today_local := 0
    now_local := { day := 0, tod := 480 }
    location_id := some "L1"
    location_lat := none
    location_lng := none
    correlation_id := some "abc123"
    face_verified := true }

def w3Rec : Absensi :=
  exampleRecord "r9" "u2" (some "abc123") { day := 0, tod := 300 } none

def w3DB : AbsensiDB := { absensis := [w3Rec], jadwals := [], polas := [] }

def w4Rec : Absensi :=
  exampleRecord "r1" "u2" (some "cc4") { day := 0, tod := 300 } none

def w4DB : AbsensiDB := { absensis := [w4Rec], jadwals := [], polas := [] }

def w4P : CheckoutPayload :=
  { user_id := "u1"
    absensi_id := some "r1"
    correlation_id := none
    now_local := { day := 0, tod := 900 }
    location_id := some "L1"
    location_lat := none
    location_lng := none
    face_verified := true }

def w5Rec : Absensi :=
  exampleRecord "r1" "u1" (some "cc5") { day := 0, tod := 300 } none

def w5DB : AbsensiDB := { absensis := [w5Rec], jadwals := [], polas := [] }

def w5P : CheckoutPayload :=
  { user_id := "u1"
    absensi_id := some "r1"
    correlation_id := some "cc5"
    now_local := { day := 0, tod := 900 }
    location_id := some "L2"
    location_lat := none
    location_lng := none
    face_verified := true }

def w6Pola : PolaJamKerja :=
  { id_pola_kerja := "q1"
    nama_pola_kerja := "pagi"
    jam_mulai_kerja := 540
    jam_selesai_kerja := 1020 }

def w6Jadwal : JadwalShiftKerja :=
  { id_jadwal_shift := "j1"
    id_user := "u1"
    id_pola_kerja := "q1"
    tanggal := { day := 0, tod := 0 } }

def w6DB : AbsensiDB := { absensis := [], jadwals := [w6Jadwal], polas := [w6Pola] }

def w6P : CheckinPayload :=
  { user_id := "u1"
    today_local := 0
    now_local := { day := 0, tod := 600 }
    location_id := some "L1"
    location_lat := none
    location_lng := none
    correlation_id := some "cc6"
    face_verified := true }

def w7DB : RbacDB :=
  { permissions :=
      [ { id_permission := "p1", resource := "absensi", action := "create" }
      , { id_permission := "p2", resource := "lokasi", action := "read" } ]
    role_permissions := [ { id_role := "role1", id_permission := "p1" } ]
    user_roles := [ { id_user := "u1", id_role := "role1" } ]
    overrides :=
      [ { id_user := "u1", id_permission := "p1", grant := false }
      , { id_user := "u1", id_permission := "p2", grant := true } ] }

def w9InP : CheckinPayload :=
  { user_id := "u1"
    today_local := 0
    now_local := { day := 0, tod := 100 }
    location_id := some "L1"
    location_lat := none
    location_lng := none
    correlation_id := some "cc9"
    face_verified := true }

/-- A checkout whose client-supplied event timestamp precedes the check-in. -/
def w9OutEarly : CheckoutPayload :=
  { user_id := "u1"
    absensi_id := none
    correlation_id := some "cc9"
    now_local := { day := 0, tod := 50 }
    location_id := some "L1"
    location_lat := none
    location_lng := none
    face_verified := true }

/-- A checkout whose event timestamp does not precede the check-in. -/
def w9OutLate : CheckoutPayload :=
  { user_id := "u1"
    absensi_id := none
    correlation_id := some "cc9"
    now_local := { day := 0, tod := 200 }
    location_id := some "L1"
    location_lat := none
    location_lng := none
    face_verified := true }

def w9OpsBad : List AbsensiOp :=
  [AbsensiOp.checkin "r1" w9InP, AbsensiOp.checkout w9OutEarly]

def w9OpsGood : List AbsensiOp :=
  [AbsensiOp.checkin "r1" w9InP, AbsensiOp.checkout w9OutLate]

def w10Small : DetectedFace :=
  { bbox := some { x1 := 0, y1 := 0, x2 := 2, y2 := 2 }, embedding := [1] }

def w10First : DetectedFace :=
  { bbox := some { x1 := 0, y1 := 0, x2 := 2, y2 := 3 }, embedding := [2] }

def w10Tied : DetectedFace :=
  { bbox := some { x1 := 1, y1 := 1, x2 := 3, y2 := 2 }, embedding := [3] }

def w10Faces : List DetectedFace := [w10Small, w10First, w10Tied]

/-- A large face at the image origin: box (0,0)-(10,10), area 100, but
selection key `x2 * y2 = 100`. -/
def w10BigBox : BoundingBox := { x1 := 0, y1 := 0, x2 := 10, y2 := 10 }

/-- A small face near the bottom-right of the image: box (90,90)-(95,95),
area 25, but selection key `x2 * y2 = 9025`. -/
def w10CornerBox : BoundingBox := { x1 := 90, y1 := 90, x2 := 95, y2 := 95 }

def w10Big : DetectedFace := { bbox := some w10BigBox, embedding := [1] }

def w10Corner : DetectedFace := { bbox := some w10CornerBox, embedding := [2] }

def w10BadFaces : List DetectedFace := [w10Big, w10Corner]

def w2InReq : CheckinRequest :=
  { user_id := "u1"
    location_id := "L1"
    lat := some 1
    lng := some 2
    image_present := true
    captured_at := ""
    correlation_id := some "abc123" }

def w2OutReq : CheckoutRequest :=
  { user_id := "u1"
    absensi_id := "r1"
    correlation_id := none
    location_id := "L1"
    lat := some 1
    lng := some 2
    image_present := true
    captured_at := "" }

/-! ## Theorems -/

/-! ### Similarity scorer -/

/-- Claim C8: under the cosine selector the score is the dot product and the
match decision holds iff score ≥ threshold; under the euclidean selector
(`"l2"`) the score is the negated euclidean distance and the match decision
holds iff score ≥ −threshold, equivalently distance ≤ threshold; every other
metric selector produces the `ValueError` for an unsupported metric. -/
theorem claim_C8 (a b : List ℝ) (t : ℝ) :
    (scoreFn a b "cosine" = ScoreResult.ok (dotList a b)
      ∧ (is_match (dotList a b) "cosine" t ↔ dotList a b ≥ t))
    ∧ (scoreFn a b "l2" = ScoreResult.ok (-(normList (subList a b)))
      ∧ (is_match (-(normList (subList a b))) "l2" t ↔ -(normList (subList a b)) ≥ -t)
      ∧ (is_match (-(normList (subList a b))) "l2" t ↔ normList (subList a b) ≤ t))
    ∧ (∀ m : String, m ≠ "cosine" → m ≠ "l2" →
        scoreFn a b m = ScoreResult.err ("Unsupported metric: " ++ m)) := by
  refine ⟨⟨?_, ?_⟩, ⟨?_, ?_, ?_⟩, ?_⟩
  · unfold scoreFn
    rw [if_pos rfl]
  · unfold is_match
    rw [if_pos rfl]
  · unfold scoreFn
    rw [if_neg (by decide), if_pos rfl]
  · unfold is_match
    rw [if_neg (by decide), if_pos rfl]
  · unfold is_match
    rw [if_neg (by decide), if_pos rfl]
    constructor
    · intro h
      have h2 : -t ≤ -(normList (subList a b)) := h
      linarith
    · intro h
      show -t ≤ -(normList (subList a b))
      linarith
  · intro m h1 h2
    unfold scoreFn
    rw [if_neg h1, if_neg h2]

/-- Witness for C8 at the concrete selector "euclidean", which the scorer
rejects with the unsupported-metric error. -/
theorem claim_C8_witness :
    ("euclidean" : String) ≠ "cosine" ∧ ("euclidean" : String) ≠ "l2" ∧
      scoreFn [] [] "euclidean" = ScoreResult.err ("Unsupported metric: " ++ "euclidean") :=
  ⟨by decide, by decide, (claim_C8 [] [] 0).2.2 "euclidean" (by decide) (by decide)⟩

/-! ### Face selection -/

/-- Python `max` keeps the first of several equal-key elements: the result of
`pyMaxAux key cur as` either is `cur` and every key in `as` is at most
`key cur`, or it sits in `as` strictly above `cur` and everything before it,
with everything after it no greater. -/
theorem pyMaxAux_spec (key : α → Int) (cur : α) (as : List α) :
    (pyMaxAux key cur as = cur ∧ ∀ g ∈ as, key g ≤ key cur)
    ∨ (∃ pre post, as = pre ++ pyMaxAux key cur as :: post
        ∧ key cur < key (pyMaxAux key cur as)
        ∧ (∀ g ∈ pre, key g < key (pyMaxAux key cur as))
        ∧ (∀ g ∈ post, key g ≤ key (pyMaxAux key cur as))) := by
  induction as generalizing cur with
  | nil =>
    left
    exact ⟨rfl, by simp⟩
  | cons a as ih =>
    have hunf : pyMaxAux key cur (a :: as)
        = pyMaxAux key (if key cur < key a then a else cur) as := rfl
    by_cases h : key cur < key a
    · have hstep : pyMaxAux key cur (a :: as) = pyMaxAux key a as := by
        rw [hunf, if_pos h]
      rw [hstep]
      rcases ih a with ⟨heq, hall⟩ | ⟨pre, post, hsplit, hlt, hpre, hpost⟩
      · right
        refine ⟨[], as, by simp [heq], ?_, by simp, ?_⟩
        · rw [heq]; exact h
        · intro g hg
          rw [heq]; exact hall g hg
      · right
        refine ⟨a :: pre, post, by rw [List.cons_append, ← hsplit], h.trans hlt, ?_, hpost⟩
        intro g hg
        rcases List.mem_cons.1 hg with rfl | hg2
        · exact hlt
        · exact hpre g hg2
    · have hstep : pyMaxAux key cur (a :: as) = pyMaxAux key cur as := by
        rw [hunf, if_neg h]
      rw [hstep]
      rcases ih cur with ⟨heq, hall⟩ | ⟨pre, post, hsplit, hlt, hpre, hpost⟩
      · left
        refine ⟨heq, ?_⟩
        intro g hg
        rcases List.mem_cons.1 hg with rfl | hg2
        · exact le_of_not_lt h
        · exact hall g hg2
      · right
        refine ⟨a :: pre, post, by rw [List.cons_append, ← hsplit], hlt, ?_, hpost⟩
        intro g hg
        rcases List.mem_cons.1 hg with rfl | hg2
        · exact lt_of_le_of_lt (le_of_not_lt h) hlt
        · exact hpre g hg2

/-- Counterexample to C10 as stated: the detector's boxes are corner-format
`(x1, y1, x2, y2)`, so the source's key `bbox[2] * bbox[3]` is `x2 * y2`,
not the area.  With a large face at the origin (box (0,0)-(10,10), area
100, key 100) and a small face near the bottom-right (box (90,90)-(95,95),
area 25, key 9025), selection picks the SMALL face and returns its
embedding: the face with the largest bounding-box area is not selected. -/
theorem claim_C10_counterexample :
    pyMax faceKey w10BadFaces = some w10Corner
    ∧ get_embedding w10BadFaces = some w10Corner.embedding
    ∧ w10Big ∈ w10BadFaces
    ∧ w10Corner.bbox = some w10CornerBox
    ∧ w10Big.bbox = some w10BigBox
    ∧ bboxArea w10CornerBox < bboxArea w10BigBox := by decide

/-- Claim C10 (amended): when the detector reports faces, the face selected
as the embedding source maximises the selection key `bbox[2] * bbox[3]` —
under the detector's corner-format `(x1, y1, x2, y2)` boxes, the product of
the bottom-right corner coordinates, NOT the box area — with ties among
equal-key candidates broken in favour of the first detected face (everything
before the selected face scores strictly lower), and `get_embedding` returns
that face's embedding.  The unamended largest-area claim is refuted by
`claim_C10_counterexample`. -/
theorem claim_C10 (faces : List DetectedFace) (f : DetectedFace)
    (hsel : pyMax faceKey faces = some f) :
    (∀ g ∈ faces, faceKey g ≤ faceKey f)
    ∧ (∃ pre post, faces = pre ++ f :: post ∧ ∀ g ∈ pre, faceKey g < faceKey f)
    ∧ get_embedding faces = some f.embedding
    ∧ (∀ b, f.bbox = some b → faceKey f = b.x2 * b.y2) := by
  have hemb : get_embedding faces = some f.embedding := by
    unfold get_embedding
    rw [hsel]
  have hbox : ∀ b, f.bbox = some b → faceKey f = b.x2 * b.y2 := by
    intro b hb
    unfold faceKey
    rw [hb]
  cases faces with
  | nil => cases hsel
  | cons a as =>
    have hf : pyMaxAux faceKey a as = f := by
      have : some (pyMaxAux faceKey a as) = some f := hsel
      exact Option.some.inj this
    rcases pyMaxAux_spec faceKey a as with ⟨heq, hall⟩ | ⟨pre, post, hsplit, hlt, hpre, hpost⟩
    · have hfa : f = a := by rw [← hf, heq]
      subst hfa
      refine ⟨?_, ⟨[], as, by simp, by simp⟩, hemb, hbox⟩
      intro g hg
      rcases List.mem_cons.1 hg with rfl | hg2
      · exact le_refl _
      · exact hall g hg2
    · rw [hf] at hsplit hlt hpre hpost
      refine ⟨?_, ⟨a :: pre, post, by rw [List.cons_append, ← hsplit], ?_⟩, hemb, hbox⟩
      · intro g hg
        rcases List.mem_cons.1 hg with rfl | hg2
        · exact le_of_lt hlt
        · rw [hsplit] at hg2
          rcases List.mem_append.1 hg2 with hg3 | hg3
          · exact le_of_lt (hpre g hg3)
          · rcases List.mem_cons.1 hg3 with rfl | hg4
            · exact le_refl _
            · exact hpost g hg4
      · intro g hg
        rcases List.mem_cons.1 hg with rfl | hg2
        · exact hlt
        · exact hpre g hg2

/-- Witness for C10 (amended) on three concrete faces with selection keys
4, 6, 6: the first of the two key-6 faces is selected and its embedding
returned. -/
theorem claim_C10_witness :
    pyMax faceKey w10Faces = some w10First ∧
      (∀ g ∈ w10Faces, faceKey g ≤ faceKey w10First) ∧
      (∃ pre post, w10Faces = pre ++ w10First :: post
        ∧ ∀ g ∈ pre, faceKey g < faceKey w10First) ∧
      get_embedding w10Faces = some w10First.embedding ∧
      (∀ b, w10First.bbox = some b → faceKey w10First = b.x2 * b.y2) :=
  ⟨by decide, claim_C10 w10Faces w10First (by decide)⟩

/-! ### Routes: face verification gates the queue only by exceptions -/

/-- A face verification that raised (did not return a match decision) stops
the check-in route before any task is enqueued. -/
theorem checkin_route_noqueue (req : CheckinRequest) (v : VerifyOutcome)
    (userExists locExists : Bool) (nowIso : String)
    (hv : ∀ b, v ≠ VerifyOutcome.verified b) :
    (checkin_route req v userExists locExists nowIso).2 = none := by
  unfold checkin_route
  by_cases h1 : pyStrip req.user_id = ""
  · simp [h1]
  · by_cases h2 : pyStrip req.location_id = ""
    · simp [h1, h2]
    · by_cases h3 : (req.lat.isNone || req.lng.isNone) = true
      · simp [h1, h2, h3]
      · by_cases h4 : (!req.image_present) = true
        · simp [h1, h2, h3, h4]
        · cases v with
          | verified b => exact absurd rfl (hv b)
          | embeddingMissing m => simp [h1, h2, h3, h4]
          | failure m => simp [h1, h2, h3, h4]

/-- A face verification that raised stops the check-out route before any task
is enqueued. -/
theorem checkout_route_noqueue (req : CheckoutRequest) (v : VerifyOutcome)
    (nowIso : String) (hv : ∀ b, v ≠ VerifyOutcome.verified b) :
    (checkout_route req v nowIso).2 = none := by
  unfold checkout_route
  by_cases h1 : pyStrip req.user_id = ""
  · simp [h1]
  · by_cases h2 : (pyStrip req.absensi_id = "" && (normOptStr req.correlation_id).isNone) = true
    · simp [h1, h2]
    · by_cases h3 : (req.lat.isNone || req.lng.isNone) = true
      · simp [h1, h2, h3]
      · by_cases h4 : (!req.image_present) = true
        · simp [h1, h2, h3, h4]
        · cases v with
          | verified b => exact absurd rfl (hv b)
          | embeddingMissing m => simp [h1, h2, h3, h4]
          | failure m => simp [h1, h2, h3, h4]

/-- Claim C2 (divergence witness): both routes enqueue their persistence task
after a face verification that RETURNED `matched = false` — the match
decision of `verify_user` is discarded; only a raised exception (no face,
missing profile, decode failure) prevents enqueueing.  At the concrete
requests below, verification yields a negative match decision yet a task
payload is handed to the queue in both routes. -/
theorem claim_C2 :
    (checkin_route w2InReq (VerifyOutcome.verified false) true true
        "2024-01-01T08:00:00").2.isSome = true
    ∧ (checkout_route w2OutReq (VerifyOutcome.verified false)
        "2024-01-01T17:00:00").2.isSome = true
    ∧ (∀ req userExists locExists nowIso m,
        (checkin_route req (VerifyOutcome.embeddingMissing m) userExists locExists nowIso).2
            = none
        ∧ (checkin_route req (VerifyOutcome.failure m) userExists locExists nowIso).2 = none)
    ∧ (∀ req nowIso m,
        (checkout_route req (VerifyOutcome.embeddingMissing m) nowIso).2 = none
        ∧ (checkout_route req (VerifyOutcome.failure m) nowIso).2 = none) := by
  refine ⟨by decide, by decide, ?_, ?_⟩
  · intro req userExists locExists nowIso m
    exact ⟨checkin_route_noqueue req (VerifyOutcome.embeddingMissing m) userExists
        locExists nowIso (fun b h => VerifyOutcome.noConfusion h),
      checkin_route_noqueue req (VerifyOutcome.failure m) userExists
        locExists nowIso (fun b h => VerifyOutcome.noConfusion h)⟩
  · intro req nowIso m
    exact ⟨checkout_route_noqueue req (VerifyOutcome.embeddingMissing m) nowIso
        (fun b h => VerifyOutcome.noConfusion h),
      checkout_route_noqueue req (VerifyOutcome.failure m) nowIso
        (fun b h => VerifyOutcome.noConfusion h)⟩

/-! ### Permission resolver -/

/-- Membership in the override pass is decided by the LAST relevant override
row (grant inserts, deny erases, blank rows and rows for other keys are
inert); with no relevant row it falls back to the base set. -/
theorem mem_applyOverrides (base : Finset String)
    (rows : List (Bool × String × String)) (k : String) :
    (k ∈ applyOverrides base rows ↔
      match (rows.filter (overrideRelevant k)).getLast? with
      | some row => row.1 = true
      | none => k ∈ base) := by
  induction rows using List.reverseRecOn with
  | nil => simp [applyOverrides]
  | append_singleton rs r ih =>
    have hfold : applyOverrides base (rs ++ [r])
        = (if r.2.1 == "" || r.2.2 == "" then applyOverrides base rs
           else if r.1 then insert (permKey r.2.1 r.2.2) (applyOverrides base rs)
           else (applyOverrides base rs).erase (permKey r.2.1 r.2.2)) := by
      unfold applyOverrides
      rw [List.foldl_append]
      rfl
    rw [hfold, List.filter_append]
    cases hb : (r.2.1 == "" || r.2.2 == "") with
    | true =>
      have hrel : overrideRelevant k r = false := by
        unfold overrideRelevant
        rw [hb]
        rfl
      rw [if_pos rfl]
      have hfil : List.filter (overrideRelevant k) [r] = [] := by
        simp [List.filter, hrel]
      rw [hfil, List.append_nil]
      exact ih
    | false =>
      rw [if_neg Bool.false_ne_true]
      cases hk : (permKey r.2.1 r.2.2 == k) with
      | true =>
        have hkey : permKey r.2.1 r.2.2 = k := eq_of_beq hk
        have hrel : overrideRelevant k r = true := by
          unfold overrideRelevant
          rw [hb, hk]
          rfl
        have hfil : List.filter (overrideRelevant k) [r] = [r] := by
          simp [List.filter, hrel]
        rw [hfil, List.getLast?_concat]
        cases hg : r.1 with
        | true =>
          rw [if_pos rfl]
          simp [Finset.mem_insert, hkey, hg]
        | false =>
          rw [if_neg Bool.false_ne_true]
          simp [Finset.mem_erase, hkey, hg]
      | false =>
        have hkey : k ≠ permKey r.2.1 r.2.2 := fun h => by
          rw [h] at hk
          simp at hk
        have hrel : overrideRelevant k r = false := by
          unfold overrideRelevant
          rw [hb, hk]
          rfl
        have hfil : List.filter (overrideRelevant k) [r] = [] := by
          simp [List.filter, hrel]
        rw [hfil, List.append_nil]
        cases hg : r.1 with
        | true =>
          rw [if_pos rfl]
          rw [Finset.mem_insert]
          constructor
          · intro h
            rcases h with h | h
            · exact absurd h hkey
            · exact ih.1 h
          · intro h
            exact Or.inr (ih.2 h)
        | false =>
          rw [if_neg Bool.false_ne_true]
          rw [Finset.mem_erase]
          constructor
          · intro h
            exact ih.1 h.2
          · intro h
            exact ⟨hkey, ih.2 h⟩

/-- Claim C7: the effective permission set is the union of role-granted keys
adjusted strictly afterwards by the per-user overrides — membership of a key
is decided by the last relevant override (grant adds, deny removes), and only
falls back to the role union when no override touches the key, so a
deny-override beats a role grant and a grant-override beats role absence; the
`can` check answers membership of the canonical lowercased `resource:action`
key, denying outright on an empty user id. -/
theorem claim_C7 (db : RbacDB) (uid resource action k : String) :
    (k ∈ compute_user_perm_set db uid ↔
      match ((overrideRows db uid).filter (overrideRelevant k)).getLast? with
      | some row => row.1 = true
      | none => k ∈ addRoleKeys (rolePermPairs db uid))
    ∧ (can db uid resource action = true ↔
        (uid ≠ "" ∧ permKey resource action ∈ compute_user_perm_set db uid))
    ∧ (∀ rows0 row,
        (overrideRows db uid).filter (overrideRelevant k) = rows0 ++ [row] →
        ((row.1 = false → k ∉ compute_user_perm_set db uid)
          ∧ (row.1 = true → k ∈ compute_user_perm_set db uid))) := by
  have hchar := mem_applyOverrides (addRoleKeys (rolePermPairs db uid)) (overrideRows db uid) k
  refine ⟨hchar, ?_, ?_⟩
  · unfold can
    by_cases h : uid = ""
    · simp [h]
    · simp [h]
  · intro rows0 row hsplit
    rw [hsplit, List.getLast?_concat] at hchar
    constructor
    · intro hg hmem
      rw [hchar.1 hmem] at hg
      cases hg
    · intro hg
      exact hchar.2 hg

/-- Witness for C7 on a concrete store: user `u1`'s role grants
`absensi:create` but a deny-override removes it, while no role grants
`lokasi:read` yet a grant-override adds it; `can` answers accordingly. -/
theorem claim_C7_witness :
    ((overrideRows w7DB "u1").filter (overrideRelevant "absensi:create")
        = [] ++ [(false, "absensi", "create")])
    ∧ ((overrideRows w7DB "u1").filter (overrideRelevant "lokasi:read")
        = [] ++ [(true, "lokasi", "read")])
    ∧ "absensi:create" ∉ compute_user_perm_set w7DB "u1"
    ∧ "lokasi:read" ∈ compute_user_perm_set w7DB "u1"
    ∧ "absensi:create" ∈ addRoleKeys (rolePermPairs w7DB "u1") :=
  ⟨by decide, by decide,
    ((claim_C7 w7DB "u1" "absensi" "create" "absensi:create").2.2
        [] (false, "absensi", "create") (by decide)).1 rfl,
    ((claim_C7 w7DB "u1" "lokasi" "read" "lokasi:read").2.2
        [] (true, "lokasi", "read") (by decide)).2 rfl,
    by decide⟩

/-! ### Check-in task lemmas -/

theorem findByCorrelation_none_of_count_zero (l : List Absensi) (c : String)
    (h : countCorrelation l c = 0) : findByCorrelation l c = none := by
  unfold findByCorrelation
  rw [List.find?_eq_none]
  intro x hx hpx
  exact (List.countP_eq_zero.mp h) x hx hpx

theorem find?_append_none {α : Type} (p : α → Bool) (l1 l2 : List α)
    (h : l1.find? p = none) : (l1 ++ l2).find? p = l2.find? p := by
  induction l1 with
  | nil => rfl
  | cons a as ih =>
    cases hpa : p a with
    | true =>
      rw [List.find?_cons_of_pos _ hpa] at h
      cases h
    | false =>
      rw [List.find?_cons_of_neg _ (by simp [hpa])] at h
      rw [List.cons_append, List.find?_cons_of_neg _ (by simp [hpa])]
      exact ih h

theorem countCorrelation_append (l1 l2 : List Absensi) (c : String) :
    countCorrelation (l1 ++ l2) c = countCorrelation l1 c + countCorrelation l2 c :=
  List.countP_append _ _ _

theorem hasCorrelation_eq_false (l : List Absensi) (c : String)
    (h : findByCorrelation l c = none) : hasCorrelation l (some c) = false := by
  unfold hasCorrelation
  rw [List.any_eq_false]
  intro x hx
  exact List.find?_eq_none.mp h x hx

/-- A check-in on a store without the correlation id inserts exactly the
record built by `mkCheckinRecord` and reports a fresh (non-idempotent)
success carrying the new row id. -/
theorem checkin_insert_eq (db : AbsensiDB) (f : String) (p : CheckinPayload) (c : String)
    (hc : normOptStr p.correlation_id = some c)
    (hfind : findByCorrelation db.absensis c = none) :
    process_checkin_task_v2 db [] f p
      = ({ db with absensis := db.absensis ++ [mkCheckinRecord db f p (some c)] },
          TaskResult.ok msgCheckinSuccess f false) := by
  simp only [process_checkin_task_v2, hc, hfind]
  simp only [checkinCommit, List.append_nil]
  rw [hasCorrelation_eq_false _ _ hfind, if_neg Bool.false_ne_true]
  rfl

/-- A check-in whose correlation id is already bound to a record of the same
user replays idempotently: same record id, `idempotent = true`, no change. -/
theorem checkin_replay_eq (db : AbsensiDB) (f : String) (p : CheckinPayload)
    (c : String) (e : Absensi)
    (hc : normOptStr p.correlation_id = some c)
    (hfind : findByCorrelation db.absensis c = some e)
    (hu : e.id_user = p.user_id) :
    process_checkin_task_v2 db [] f p
      = (db, TaskResult.ok msgCheckinReplay e.id_absensi true) := by
  simp only [process_checkin_task_v2, hc, hfind]
  rw [if_pos (by simp [hu])]
  simp

/-- A check-in whose correlation id is bound to a different user's record
fails with the conflict error and leaves the store unchanged (beyond the
concurrently committed rows, which are not this task's work). -/
theorem checkin_conflict_eq (db : AbsensiDB) (inter : List Absensi) (f : String)
    (p : CheckinPayload) (c : String) (e : Absensi)
    (hc : normOptStr p.correlation_id = some c)
    (hfind : findByCorrelation db.absensis c = some e)
    (hu : e.id_user ≠ p.user_id) :
    process_checkin_task_v2 db inter f p
      = ({ db with absensis := db.absensis ++ inter },
          TaskResult.error (msgCorrConflict c)) := by
  simp only [process_checkin_task_v2, hc, hfind]
  rw [if_neg (by simp [hu])]

/-- A check-in that loses the insert race (its pre-insert lookup saw no
record with the correlation id, but a concurrent commit `o` carrying that id
landed first) catches the uniqueness violation, re-queries, and replays
idempotently on the winner when owners agree, else surfaces the error. -/
theorem checkin_race_eq (db : AbsensiDB) (o : Absensi) (f : String)
    (p : CheckinPayload) (c : String)
    (hc : normOptStr p.correlation_id = some c)
    (h0 : countCorrelation db.absensis c = 0)
    (ho : o.correlation_id = some c) :
    process_checkin_task_v2 db [o] f p
      = ({ db with absensis := db.absensis ++ [o] },
          if o.id_user == p.user_id then TaskResult.ok msgCheckinReplay o.id_absensi true
          else TaskResult.error msgIntegrityError) := by
  have hfind := findByCorrelation_none_of_count_zero _ _ h0
  have hfo : findByCorrelation (db.absensis ++ [o]) c = some o := by
    unfold findByCorrelation at hfind ⊢
    rw [find?_append_none _ _ _ hfind]
    exact List.find?_cons_of_pos _ (by simp [ho])
  have hhas : hasCorrelation (db.absensis ++ [o]) (some c) = true := by
    unfold hasCorrelation
    rw [List.any_eq_true]
    exact ⟨o, by simp, by simp [ho]⟩
  simp only [process_checkin_task_v2, hc, hfind]
  simp only [checkinCommit]
  rw [hhas, if_pos rfl]
  simp only [hfo]
  cases hu : (o.id_user == p.user_id) with
  | true => simp
  | false => simp

/-- Replaying the same payload against a store already holding the user's
record with that correlation id changes nothing, any number of times. -/
theorem runCheckins_replay (db : AbsensiDB) (p : CheckinPayload) (c : String)
    (e : Absensi) (fids : List String)
    (hc : normOptStr p.correlation_id = some c)
    (hfind : findByCorrelation db.absensis c = some e)
    (hu : e.id_user = p.user_id) :
    runCheckins db fids p
      = (db, List.replicate fids.length (TaskResult.ok msgCheckinReplay e.id_absensi true)) := by
  induction fids with
  | nil => simp [runCheckins]
  | cons f rest ih =>
    simp only [runCheckins]
    rw [checkin_replay_eq db f p c e hc hfind hu]
    rw [ih]
    simp [List.replicate]

/-- Claim C1: submitting the same check-in (same correlation id `c`, same
user) N ≥ 1 times sequentially leaves exactly one stored record bearing `c`;
every call reports the same record id (the first call's fresh row id); every
call after the first replays with message/id/`idempotent = true` and leaves
the store exactly as the first call did; and a duplicate that is detected
only at commit time — the pre-insert lookup saw nothing but a concurrent
insert `o` of the same user won the race — also replays idempotently on the
winning record without inserting anything. -/
theorem claim_C1 (db : AbsensiDB) (p : CheckinPayload) (c : String) (fids : List String)
    (hc : normOptStr p.correlation_id = some c)
    (h0 : countCorrelation db.absensis c = 0)
    (hne : fids ≠ []) :
    countCorrelation (runCheckins db fids p).1.absensis c = 1
    ∧ (∃ rid,
        (∀ res ∈ (runCheckins db fids p).2, ∃ m b, res = TaskResult.ok m rid b)
        ∧ (∀ pre res post, (runCheckins db fids p).2 = pre ++ res :: post → pre ≠ [] →
            res = TaskResult.ok msgCheckinReplay rid true))
    ∧ (∀ i, 1 ≤ i →
        (runCheckins db (fids.take i) p).1 = (runCheckins db (fids.take 1) p).1)
    ∧ (∀ (db1 : AbsensiDB) (o : Absensi) (f : String),
        countCorrelation db1.absensis c = 0 → o.correlation_id = some c →
        o.id_user = p.user_id →
        process_checkin_task_v2 db1 [o] f p
          = ({ db1 with absensis := db1.absensis ++ [o] },
              TaskResult.ok msgCheckinReplay o.id_absensi true)) := by
  obtain ⟨f, rest, rfl⟩ : ∃ f rest, fids = f :: rest := by
    cases fids with
    | nil => exact absurd rfl hne
    | cons f rest => exact ⟨f, rest, rfl⟩
  have hfind0 := findByCorrelation_none_of_count_zero _ _ h0
  have hstep1 := checkin_insert_eq db f p c hc hfind0
  have hrecc : (mkCheckinRecord db f p (some c)).correlation_id = some c := rfl
  have hrecu : (mkCheckinRecord db f p (some c)).id_user = p.user_id := rfl
  have hreci : (mkCheckinRecord db f p (some c)).id_absensi = f := rfl
  have hfind1 : findByCorrelation
      ({ db with absensis := db.absensis ++ [mkCheckinRecord db f p (some c)] }
        : AbsensiDB).absensis c = some (mkCheckinRecord db f p (some c)) := by
    show findByCorrelation (db.absensis ++ [mkCheckinRecord db f p (some c)]) c
      = some (mkCheckinRecord db f p (some c))
    unfold findByCorrelation at hfind0 ⊢
    rw [find?_append_none _ _ _ hfind0]
    exact List.find?_cons_of_pos _ (by simp [hrecc])
  have hrunTail : ∀ l : List String,
      runCheckins
        ({ db with absensis := db.absensis ++ [mkCheckinRecord db f p (some c)] }) l p
        = ({ db with absensis := db.absensis ++ [mkCheckinRecord db f p (some c)] },
            List.replicate l.length (TaskResult.ok msgCheckinReplay f true)) := by
    intro l
    rw [runCheckins_replay _ p c (mkCheckinRecord db f p (some c)) l hc hfind1 hrecu]
    rfl
  have hrun : runCheckins db (f :: rest) p
      = ({ db with absensis := db.absensis ++ [mkCheckinRecord db f p (some c)] },
          TaskResult.ok msgCheckinSuccess f false
            :: List.replicate rest.length (TaskResult.ok msgCheckinReplay f true)) := by
    simp only [runCheckins]
    rw [hstep1, hrunTail rest]
  refine ⟨?_, ⟨f, ?_, ?_⟩, ?_, ?_⟩
  · rw [hrun]
    show countCorrelation (db.absensis ++ [mkCheckinRecord db f p (some c)]) c = 1
    rw [countCorrelation_append, h0]
    simp [countCorrelation, List.countP_cons, hrecc]
  · intro res hres
    rw [hrun] at hres
    rcases List.mem_cons.1 hres with rfl | hres2
    · exact ⟨msgCheckinSuccess, false, rfl⟩
    · rw [List.eq_of_mem_replicate hres2]
      exact ⟨msgCheckinReplay, true, rfl⟩
  · intro pre res post hsplit hpre
    rw [hrun] at hsplit
    cases pre with
    | nil => exact absurd rfl hpre
    | cons x pre2 =>
      rw [List.cons_append] at hsplit
      injection hsplit with h1 h2
      have : res ∈ List.replicate rest.length (TaskResult.ok msgCheckinReplay f true) := by
        rw [h2]
        exact List.mem_append_right _ (List.mem_cons_self _ _)
      exact List.eq_of_mem_replicate this
  · intro i hi
    cases i with
    | zero => cases hi
    | succ j =>
      have h1 : (f :: rest).take (j + 1) = f :: rest.take j := rfl
      have h2 : (f :: rest).take 1 = f :: List.take 0 rest := rfl
      rw [h1, h2, List.take_zero]
      simp only [runCheckins]
      rw [hstep1, hrunTail (rest.take j)]
  · intro db1 o f2 h0b hob hub
    rw [checkin_race_eq db1 o f2 p c hc h0b hob]
    rw [if_pos (by simp [hub])]

/-- Witness for C1: two submissions of the same payload against an empty
store leave exactly one record bearing the correlation id. -/
theorem claim_C1_witness :
    normOptStr w1P.correlation_id = some "abc123"
    ∧ countCorrelation emptyAbsensiDB.absensis "abc123" = 0
    ∧ (["a1", "a2"] : List String) ≠ []
    ∧ countCorrelation (runCheckins emptyAbsensiDB ["a1", "a2"] w1P).1.absensis "abc123" = 1 :=
  ⟨by decide, by decide, by decide,
    (claim_C1 emptyAbsensiDB w1P "abc123" ["a1", "a2"] (by decide) (by decide)
      (by decide)).1⟩

/-- Claim C3: a check-in whose correlation id is bound to a different user's
record fails with an error and performs no insert and no mutation — both when
the binding is seen by the pre-insert lookup (conflict message, store left at
`db.absensis ++ interleaved`, none of which is this task's work) and when it
is discovered through the uniqueness violation after losing the insert race
to a different user's insert `o` (re-raised integrity error, again nothing
inserted by this task). -/
theorem claim_C3 (db : AbsensiDB) (p : CheckinPayload) (c : String)
    (hc : normOptStr p.correlation_id = some c) :
    (∀ e inter f, findByCorrelation db.absensis c = some e → e.id_user ≠ p.user_id →
        process_checkin_task_v2 db inter f p
          = ({ db with absensis := db.absensis ++ inter },
              TaskResult.error (msgCorrConflict c)))
    ∧ (∀ o f, countCorrelation db.absensis c = 0 → o.correlation_id = some c →
        o.id_user ≠ p.user_id →
        process_checkin_task_v2 db [o] f p
          = ({ db with absensis := db.absensis ++ [o] },
              TaskResult.error msgIntegrityError)) := by
  constructor
  · intro e inter f hfind hu
    exact checkin_conflict_eq db inter f p c e hc hfind hu
  · intro o f h0 ho hu
    rw [checkin_race_eq db o f p c hc h0 ho]
    rw [if_neg (by simp [hu])]

/-- Witness for C3: a check-in by `u1` reusing `u2`'s correlation id fails
with the conflict error and leaves the single stored record untouched. -/
theorem claim_C3_witness :
    normOptStr w1P.correlation_id = some "abc123"
    ∧ findByCorrelation w3DB.absensis "abc123" = some w3Rec
    ∧ w3Rec.id_user ≠ w1P.user_id
    ∧ process_checkin_task_v2 w3DB [] "f1" w1P
        = ({ w3DB with absensis := w3DB.absensis ++ [] },
            TaskResult.error (msgCorrConflict "abc123")) :=
  ⟨by decide, by decide, by decide,
    (claim_C3 w3DB w1P "abc123" (by decide)).1 w3Rec [] "f1" (by decide) (by decide)⟩

/-! ### Check-out task lemmas -/

theorem getElem?_set_self_of_some {α : Type} (l : List α) (i : Nat) (x y : α)
    (hy : l[i]? = some y) : (l.set i x)[i]? = some x := by
  induction l generalizing i with
  | nil => cases hy
  | cons a as ih =>
    cases i with
    | zero => rw [List.set_cons_zero, List.getElem?_cons_zero]
    | succ j =>
      rw [List.set_cons_succ, List.getElem?_cons_succ]
      exact ih j (by simpa using hy)

/-- Replacing the element at `i` with one the predicate scores identically
leaves the first-match index unchanged. -/
theorem findIdxA_set {α : Type} (p : α → Bool) (l : List α) (i : Nat) (x y : α)
    (hy : l[i]? = some y) (hxy : p x = p y) :
    findIdxA p (l.set i x) = findIdxA p l := by
  induction l generalizing i with
  | nil => cases hy
  | cons a as ih =>
    cases i with
    | zero =>
      have ha : a = y := by simpa using hy
      have hpx : p x = p a := by rw [hxy, ha]
      show findIdxA p (x :: as) = findIdxA p (a :: as)
      simp only [findIdxA, hpx]
    | succ j =>
      show findIdxA p (a :: as.set j x) = findIdxA p (a :: as)
      simp only [findIdxA]
      rw [ih j (by simpa using hy)]

/-- The checkout mutation touches no field the target resolution reads, so
re-resolving after the update finds the same row. -/
theorem resolveCheckoutIdx_set_applyCheckout (l : List Absensi) (i : Nat)
    (r : Absensi) (p : CheckoutPayload) (aid c : Option String) (uid : String)
    (hr : l[i]? = some r) :
    resolveCheckoutIdx (l.set i (applyCheckout r p)) aid c uid
      = resolveCheckoutIdx l aid c uid := by
  cases aid with
  | none =>
    cases c with
    | none => rfl
    | some c0 =>
      simp only [resolveCheckoutIdx]
      rw [findIdxA_set
        (fun (x : Absensi) => x.correlation_id == some c0 && x.id_user == uid)
        l i (applyCheckout r p) r hr rfl]
  | some a =>
    simp only [resolveCheckoutIdx]
    rw [findIdxA_set (fun (x : Absensi) => x.id_absensi == a)
      l i (applyCheckout r p) r hr rfl]
    cases hj : findIdxA (fun (x : Absensi) => x.id_absensi == a) l with
    | some j => rfl
    | none =>
      cases c with
      | none => rfl
      | some c0 =>
        show findIdxA
            (fun (x : Absensi) => x.correlation_id == some c0 && x.id_user == uid)
            (l.set i (applyCheckout r p))
          = findIdxA
            (fun (x : Absensi) => x.correlation_id == some c0 && x.id_user == uid) l
        exact findIdxA_set
          (fun (x : Absensi) => x.correlation_id == some c0 && x.id_user == uid)
          l i (applyCheckout r p) r hr rfl

/-- A checkout that resolves no record fails with the not-found error and
mutates nothing. -/
theorem checkout_notfound_eq (db : AbsensiDB) (p : CheckoutPayload)
    (h : resolveCheckoutIdx db.absensis (normOptStr p.absensi_id)
        (normOptStr p.correlation_id) p.user_id = none) :
    process_checkout_task_v2 db p
      = (db, TaskResult.error
          (msgCheckoutNotFound (normOptStr p.absensi_id) (normOptStr p.correlation_id))) := by
  simp only [process_checkout_task_v2, h]

/-- A checkout that resolves a record owned by someone else fails with the
ownership-hiding not-found error and mutates nothing. -/
theorem checkout_wronguser_eq (db : AbsensiDB) (p : CheckoutPayload) (i : Nat) (r : Absensi)
    (hi : resolveCheckoutIdx db.absensis (normOptStr p.absensi_id)
        (normOptStr p.correlation_id) p.user_id = some i)
    (hr : db.absensis[i]? = some r)
    (hu : r.id_user ≠ p.user_id) :
    process_checkout_task_v2 db p = (db, TaskResult.error msgCheckoutWrongUser) := by
  simp only [process_checkout_task_v2, hi, hr]
  rw [if_neg (by simp [hu])]

/-- A checkout on a record whose checkout timestamp is already set replays
idempotently: same record id, `idempotent = true`, no mutation. -/
theorem checkout_replay_eq (db : AbsensiDB) (p : CheckoutPayload) (i : Nat)
    (r : Absensi) (t : LocalDateTime)
    (hi : resolveCheckoutIdx db.absensis (normOptStr p.absensi_id)
        (normOptStr p.correlation_id) p.user_id = some i)
    (hr : db.absensis[i]? = some r)
    (hu : r.id_user = p.user_id)
    (ht : r.waktu_pulang = some t) :
    process_checkout_task_v2 db p
      = (db, TaskResult.ok msgCheckoutReplay r.id_absensi true) := by
  simp only [process_checkout_task_v2, hi, hr, ht]
  rw [if_pos (by simp [hu])]

/-- A checkout on the caller's still-open record writes exactly the
`applyCheckout` fields into the resolved row and reports a fresh success. -/
theorem checkout_update_eq (db : AbsensiDB) (p : CheckoutPayload) (i : Nat) (r : Absensi)
    (hi : resolveCheckoutIdx db.absensis (normOptStr p.absensi_id)
        (normOptStr p.correlation_id) p.user_id = some i)
    (hr : db.absensis[i]? = some r)
    (hu : r.id_user = p.user_id)
    (hp : r.waktu_pulang = none) :
    process_checkout_task_v2 db p
      = ({ db with absensis := db.absensis.set i (applyCheckout r p) },
          TaskResult.ok msgCheckoutSuccess r.id_absensi false) := by
  simp only [process_checkout_task_v2, hi, hr, hp]
  rw [if_pos (by simp [hu])]

/-- Claim C4: checkout target resolution consults the primary-key lookup
first; the `(correlationId, userId)` pair lookup is consulted exactly when
the primary-key lookup produced nothing (because the id was absent or
matched no row) — in particular a primary-key hit makes the result
independent of every correlation binding; an unresolved target, or a target
owned by a different user, fails with a not-found error and no record is
mutated. -/
theorem claim_C4 (db : AbsensiDB) (p : CheckoutPayload) :
    (∀ a i, normOptStr p.absensi_id = some a →
        findIdxA (fun (r : Absensi) => r.id_absensi == a) db.absensis = some i →
        resolveCheckoutIdx db.absensis (normOptStr p.absensi_id)
          (normOptStr p.correlation_id) p.user_id = some i)
    ∧ (∀ a, normOptStr p.absensi_id = some a →
        findIdxA (fun (r : Absensi) => r.id_absensi == a) db.absensis = none →
        resolveCheckoutIdx db.absensis (normOptStr p.absensi_id)
            (normOptStr p.correlation_id) p.user_id
          = (match normOptStr p.correlation_id with
             | some c0 => findIdxA
                 (fun (r : Absensi) => r.correlation_id == some c0 && r.id_user == p.user_id)
                 db.absensis
             | none => none))
    ∧ (normOptStr p.absensi_id = none →
        resolveCheckoutIdx db.absensis (normOptStr p.absensi_id)
            (normOptStr p.correlation_id) p.user_id
          = (match normOptStr p.correlation_id with
             | some c0 => findIdxA
                 (fun (r : Absensi) => r.correlation_id == some c0 && r.id_user == p.user_id)
                 db.absensis
             | none => none))
    ∧ (resolveCheckoutIdx db.absensis (normOptStr p.absensi_id)
          (normOptStr p.correlation_id) p.user_id = none →
        process_checkout_task_v2 db p
          = (db, TaskResult.error
              (msgCheckoutNotFound (normOptStr p.absensi_id) (normOptStr p.correlation_id))))
    ∧ (∀ i r, resolveCheckoutIdx db.absensis (normOptStr p.absensi_id)
          (normOptStr p.correlation_id) p.user_id = some i →
        db.absensis[i]? = some r → r.id_user ≠ p.user_id →
        process_checkout_task_v2 db p = (db, TaskResult.error msgCheckoutWrongUser)) := by
  refine ⟨?_, ?_, ?_, ?_, ?_⟩
  · intro a i ha hidx
    unfold resolveCheckoutIdx
    rw [ha]
    simp only [hidx]
  · intro a ha hidx
    unfold resolveCheckoutIdx
    rw [ha]
    simp only [hidx]
  · intro ha
    unfold resolveCheckoutIdx
    rw [ha]
  · exact checkout_notfound_eq db p
  · intro i r hi hr hu
    exact checkout_wronguser_eq db p i r hi hr hu

/-- Witness for C4: `u1` checking out `u2`'s record by its id receives the
not-found error and the store is unchanged. -/
theorem claim_C4_witness :
    resolveCheckoutIdx w4DB.absensis (normOptStr w4P.absensi_id)
        (normOptStr w4P.correlation_id) w4P.user_id = some 0
    ∧ w4DB.absensis[0]? = some w4Rec
    ∧ w4Rec.id_user ≠ w4P.user_id
    ∧ process_checkout_task_v2 w4DB w4P = (w4DB, TaskResult.error msgCheckoutWrongUser) :=
  ⟨by decide, by decide, by decide,
    (claim_C4 w4DB w4P).2.2.2.2 0 w4Rec (by decide) (by decide) (by decide)⟩

/-- Claim C5: a checkout whose target already carries a checkout timestamp
replays idempotently (same record id, `idempotent = true`, no mutation);
and checking out an open record twice with one payload stores the first
call's timestamp, while the second call replays the same record id and
leaves the store exactly as the first call left it. -/
theorem claim_C5 (db : AbsensiDB) (p : CheckoutPayload) :
    (∀ i r t, resolveCheckoutIdx db.absensis (normOptStr p.absensi_id)
          (normOptStr p.correlation_id) p.user_id = some i →
        db.absensis[i]? = some r → r.id_user = p.user_id → r.waktu_pulang = some t →
        process_checkout_task_v2 db p
          = (db, TaskResult.ok msgCheckoutReplay r.id_absensi true))
    ∧ (∀ i r, resolveCheckoutIdx db.absensis (normOptStr p.absensi_id)
          (normOptStr p.correlation_id) p.user_id = some i →
        db.absensis[i]? = some r → r.id_user = p.user_id → r.waktu_pulang = none →
        (process_checkout_task_v2 db p).2
            = TaskResult.ok msgCheckoutSuccess r.id_absensi false
        ∧ (process_checkout_task_v2 (process_checkout_task_v2 db p).1 p).2
            = TaskResult.ok msgCheckoutReplay r.id_absensi true
        ∧ (process_checkout_task_v2 (process_checkout_task_v2 db p).1 p).1
            = (process_checkout_task_v2 db p).1
        ∧ (process_checkout_task_v2 db p).1.absensis[i]? = some (applyCheckout r p)
        ∧ (applyCheckout r p).waktu_pulang = some p.now_local) := by
  constructor
  · intro i r t hi hr hu ht
    exact checkout_replay_eq db p i r t hi hr hu ht
  · intro i r hi hr hu hp
    have h1 := checkout_update_eq db p i r hi hr hu hp
    have hget : ({ db with absensis := db.absensis.set i (applyCheckout r p) }
        : AbsensiDB).absensis[i]? = some (applyCheckout r p) :=
      getElem?_set_self_of_some db.absensis i (applyCheckout r p) r hr
    have hres2 : resolveCheckoutIdx
        ({ db with absensis := db.absensis.set i (applyCheckout r p) }
          : AbsensiDB).absensis
        (normOptStr p.absensi_id) (normOptStr p.correlation_id) p.user_id = some i := by
      show resolveCheckoutIdx (db.absensis.set i (applyCheckout r p)) _ _ _ = some i
      rw [resolveCheckoutIdx_set_applyCheckout db.absensis i r p _ _ _ hr]
      exact hi
    have h2 := checkout_replay_eq
      ({ db with absensis := db.absensis.set i (applyCheckout r p) }) p i
      (applyCheckout r p) p.now_local hres2 hget hu rfl
    have hfst : (process_checkout_task_v2 db p).1
        = ({ db with absensis := db.absensis.set i (applyCheckout r p) } : AbsensiDB) := by
      rw [h1]
    refine ⟨?_, ?_, ?_, ?_, rfl⟩
    · rw [h1]
    · rw [hfst, h2]
      rfl
    · rw [hfst, h2]
    · rw [hfst]
      exact hget

/-- Witness for C5: checking out the open record `r1` twice stores the first
timestamp and replays the same id on the second call. -/
theorem claim_C5_witness :
    resolveCheckoutIdx w5DB.absensis (normOptStr w5P.absensi_id)
        (normOptStr w5P.correlation_id) w5P.user_id = some 0
    ∧ w5DB.absensis[0]? = some w5Rec
    ∧ w5Rec.id_user = w5P.user_id
    ∧ w5Rec.waktu_pulang = none
    ∧ (process_checkout_task_v2 w5DB w5P).2
        = TaskResult.ok msgCheckoutSuccess w5Rec.id_absensi false
    ∧ (process_checkout_task_v2 (process_checkout_task_v2 w5DB w5P).1 w5P).2
        = TaskResult.ok msgCheckoutReplay w5Rec.id_absensi true :=
  ⟨by decide, by decide, by decide, by decide,
    ((claim_C5 w5DB w5P).2 0 w5Rec (by decide) (by decide) (by decide) (by decide)).1,
    ((claim_C5 w5DB w5P).2 0 w5Rec (by decide) (by decide) (by decide) (by decide)).2.1⟩

/-! ### Lateness and the checkout-after-checkin invariant -/

/-- A check-in without a correlation id always inserts a fresh record. -/
theorem checkin_insert_none_eq (db : AbsensiDB) (f : String) (p : CheckinPayload)
    (hc : normOptStr p.correlation_id = none) :
    process_checkin_task_v2 db [] f p
      = ({ db with absensis := db.absensis ++ [mkCheckinRecord db f p none] },
          TaskResult.ok msgCheckinSuccess f false) := by
  simp only [process_checkin_task_v2, hc]
  simp only [checkinCommit, List.append_nil]
  rfl

/-- Claim C6: a check-in that creates a new record stores exactly the
`mkCheckinRecord` row; when the shift lookup finds the user's schedule for
the event date (with its work pattern), the stored check-in status is LATE
precisely when the event time-of-day is strictly after the scheduled start
and ON-TIME otherwise; when the user has no schedule row at all for that
date, the status is ON-TIME. -/
theorem claim_C6 (db : AbsensiDB) (f : String) (p : CheckinPayload)
    (hnew : ∀ c, normOptStr p.correlation_id = some c →
      findByCorrelation db.absensis c = none) :
    (process_checkin_task_v2 db [] f p).1.absensis
        = db.absensis ++ [mkCheckinRecord db f p (normOptStr p.correlation_id)]
    ∧ (∀ j q, findJadwalForDate db p.user_id p.today_local = some j →
        findPola db.polas j.id_pola_kerja = some q →
        (mkCheckinRecord db f p (normOptStr p.correlation_id)).status_masuk
          = some (if q.jam_mulai_kerja < p.now_local.tod then StatusAbsensi.TERLAMBAT
              else StatusAbsensi.TEPAT))
    ∧ ((∀ j ∈ db.jadwals, ¬(j.id_user = p.user_id ∧ j.tanggal.day = p.today_local)) →
        (mkCheckinRecord db f p (normOptStr p.correlation_id)).status_masuk
          = some StatusAbsensi.TEPAT) := by
  refine ⟨?_, ?_, ?_⟩
  · cases hn : normOptStr p.correlation_id with
    | some c => rw [checkin_insert_eq db f p c hn (hnew c hn)]
    | none => rw [checkin_insert_none_eq db f p hn]
  · intro j q hj hq
    show some (lateStatus db (findJadwalForDate db p.user_id p.today_local) p.now_local)
      = some (if q.jam_mulai_kerja < p.now_local.tod then StatusAbsensi.TERLAMBAT
          else StatusAbsensi.TEPAT)
    rw [hj]
    simp only [lateStatus, hq]
  · intro hno
    have hjn : findJadwalForDate db p.user_id p.today_local = none := by
      unfold findJadwalForDate
      rw [List.find?_eq_none]
      intro j hj hpj
      simp only [Bool.and_eq_true, beq_iff_eq] at hpj
      exact hno j hj ⟨hpj.1.1, hpj.1.2⟩
    show some (lateStatus db (findJadwalForDate db p.user_id p.today_local) p.now_local)
      = some StatusAbsensi.TEPAT
    rw [hjn]
    rfl

/-- Witness for C6: with a schedule starting at 540 and a check-in at
time-of-day 600, the created record's status comparison evaluates as LATE. -/
theorem claim_C6_witness :
    findJadwalForDate w6DB "u1" 0 = some w6Jadwal
    ∧ findPola w6DB.polas w6Jadwal.id_pola_kerja = some w6Pola
    ∧ (mkCheckinRecord w6DB "f6" w6P (normOptStr w6P.correlation_id)).status_masuk
        = some (if w6Pola.jam_mulai_kerja < w6P.now_local.tod then StatusAbsensi.TERLAMBAT
            else StatusAbsensi.TEPAT)
    ∧ (if w6Pola.jam_mulai_kerja < w6P.now_local.tod then StatusAbsensi.TERLAMBAT
        else StatusAbsensi.TEPAT) = StatusAbsensi.TERLAMBAT :=
  ⟨by decide, by decide,
    (claim_C6 w6DB "f6" w6P (fun c _ => rfl)).2.1 w6Jadwal w6Pola (by decide) (by decide),
    by decide⟩

/-- Every branch of the check-in task either leaves the table at the
already-committed rows or appends one record whose checkout timestamp is
null. -/
theorem checkin_absensis_shape (db : AbsensiDB) (inter : List Absensi) (f : String)
    (p : CheckinPayload) :
    (process_checkin_task_v2 db inter f p).1.absensis = db.absensis ++ inter
    ∨ ∃ rec, (process_checkin_task_v2 db inter f p).1.absensis
        = (db.absensis ++ inter) ++ [rec] ∧ rec.waktu_pulang = none := by
  cases hn : normOptStr p.correlation_id with
  | none =>
    right
    refine ⟨mkCheckinRecord db f p none, ?_, rfl⟩
    simp only [process_checkin_task_v2, hn, checkinCommit]
    rfl
  | some c =>
    cases hf : findByCorrelation db.absensis c with
    | some e =>
      cases he : (e.id_user == p.user_id) with
      | true =>
        left
        simp only [process_checkin_task_v2, hn, hf, he]
        rfl
      | false =>
        left
        simp only [process_checkin_task_v2, hn, hf, he]
        rfl
    | none =>
      cases hh : hasCorrelation (db.absensis ++ inter) (some c) with
      | true =>
        left
        simp only [process_checkin_task_v2, hn, hf, checkinCommit, hh]
        cases hfc : findByCorrelation (db.absensis ++ inter) c with
        | some e2 =>
          cases he2 : (e2.id_user == p.user_id) with
          | true =>
            simp only [hfc, he2]
            rfl
          | false =>
            simp only [hfc, he2]
            rfl
        | none =>
          simp only [hfc]
          rfl
      | false =>
        right
        refine ⟨mkCheckinRecord db f p (some c), ?_, rfl⟩
        simp only [process_checkin_task_v2, hn, hf, checkinCommit, hh]
        rfl

/-- Every branch of the checkout task either leaves the store unchanged or
sets the `applyCheckout` fields on the resolved, owned, still-open record. -/
theorem checkout_shape (db : AbsensiDB) (p : CheckoutPayload) :
    (process_checkout_task_v2 db p).1 = db
    ∨ ∃ i r, resolveCheckoutIdx db.absensis (normOptStr p.absensi_id)
          (normOptStr p.correlation_id) p.user_id = some i
        ∧ db.absensis[i]? = some r ∧ r.id_user = p.user_id ∧ r.waktu_pulang = none
        ∧ (process_checkout_task_v2 db p).1
            = { db with absensis := db.absensis.set i (applyCheckout r p) } := by
  cases hi : resolveCheckoutIdx db.absensis (normOptStr p.absensi_id)
      (normOptStr p.correlation_id) p.user_id with
  | none =>
    left
    rw [checkout_notfound_eq db p hi]
  | some i =>
    cases hr : db.absensis[i]? with
    | none =>
      left
      simp only [process_checkout_task_v2, hi, hr]
    | some r =>
      cases hu : (r.id_user == p.user_id) with
      | false =>
        left
        rw [checkout_wronguser_eq db p i r hi hr (ne_of_beq_false hu)]
      | true =>
        cases hp : r.waktu_pulang with
        | some t =>
          left
          rw [checkout_replay_eq db p i r t hi hr (eq_of_beq hu) hp]
        | none =>
          right
          exact ⟨i, r, rfl, hr, eq_of_beq hu, hp,
            by rw [checkout_update_eq db p i r hi hr (eq_of_beq hu) hp]⟩

/-- One operation preserves the invariant, provided a mutating checkout's
event timestamp does not precede the target's check-in timestamp. -/
theorem stepOp_preserves (db : AbsensiDB) (op : AbsensiOp)
    (hinv : dbInvariant db = true) (hsafe : opStepSafe db op = true) :
    dbInvariant (stepOp db op) = true := by
  cases op with
  | checkin f p =>
    show dbInvariant (process_checkin_task_v2 db [] f p).1 = true
    rcases checkin_absensis_shape db [] f p with h | ⟨rec, h, hrec⟩
    · unfold dbInvariant at hinv ⊢
      rw [h, List.append_nil]
      exact hinv
    · unfold dbInvariant at hinv ⊢
      rw [h]
      simp only [List.append_nil, List.all_append, hinv, Bool.true_and]
      simp [recInvariant, hrec]
  | checkout p =>
    show dbInvariant (process_checkout_task_v2 db p).1 = true
    rcases checkout_shape db p with h | ⟨i, r, hi, hr, hu, hp, h⟩
    · rw [h]
      exact hinv
    · rw [h]
      unfold dbInvariant at hinv ⊢
      rw [List.all_eq_true] at hinv ⊢
      intro x hx
      rcases List.mem_or_eq_of_mem_set hx with hx2 | rfl
      · exact hinv x hx2
      · show recInvariant (applyCheckout r p) = true
        have hleb : r.waktu_masuk.leb p.now_local = true := by
          simp only [opStepSafe, checkoutSafe, hi, hr] at hsafe
          rw [if_pos (by simp [hu, hp])] at hsafe
          exact hsafe
        exact hleb

/-- Claim C9 (amended): after any sequence of check-in and check-out
operations IN WHICH every mutating checkout carries an event timestamp not
earlier than its target's check-in timestamp, every stored record's checkout
timestamp is null or ≥ its check-in timestamp.  The unamended claim is
refuted by `claim_C9_counterexample`: the code stores the client-supplied
checkout timestamp without comparing it to the check-in timestamp. -/
theorem claim_C9 (db : AbsensiDB) (ops : List AbsensiOp)
    (hinv : dbInvariant db = true) (hsafe : opsSafe db ops = true) :
    dbInvariant (runOps db ops) = true := by
  induction ops generalizing db with
  | nil => exact hinv
  | cons op rest ih =>
    simp only [opsSafe, Bool.and_eq_true] at hsafe
    show dbInvariant (List.foldl stepOp db (op :: rest)) = true
    rw [List.foldl_cons]
    exact ih (stepOp db op) (stepOp_preserves db op hinv hsafe.1) hsafe.2

/-- Witness for C9 (amended) on a concrete safe run: check-in at time 100,
checkout at time 200. -/
theorem claim_C9_witness :
    dbInvariant emptyAbsensiDB = true
    ∧ opsSafe emptyAbsensiDB w9OpsGood = true
    ∧ dbInvariant (runOps emptyAbsensiDB w9OpsGood) = true :=
  ⟨by decide, by decide, claim_C9 emptyAbsensiDB w9OpsGood (by decide) (by decide)⟩

/-- Counterexample to C9 as stated: check-in at time 100 followed by a
checkout whose client-supplied timestamp is 50 stores a checkout timestamp
strictly before the check-in timestamp, violating the invariant. -/
theorem claim_C9_counterexample :
    dbInvariant (runOps emptyAbsensiDB w9OpsBad) = false := by decide

end FaceAttendance
